import Mathlib

/-!
Verification of the HAR reporter (`parse_har.py`).

The program is a single linear pass: load a JSON HAR document, print the
entry count, and for each entry whose URL contains one of three literal
substrings print a formatted block; one top-level exception handler turns
any failure into a final `Error parsing HAR: <message>` line.

The shallow embedding below models JSON values as an inductive type,
Python dictionary/sequence operations as functions into `Except String`
(the error carries the exception message), and each printing fragment as
an `Emit`: the list of lines printed by the fragment together with the
exception, if any, that aborted it.
-/

namespace ParseHar

/-- A JSON value as produced by `json.load`. Object fields are kept in
insertion order; `json.load` yields unique keys per object. -/
inductive JVal where
  | null
  | bool (b : Bool)
  | num (n : Int)
  | str (s : String)
  | arr (xs : List JVal)
  | obj (fields : List (String × JVal))

/-- First binding of a key in an object's field list. -/
def lookupField : List (String × JVal) → String → Option JVal
  | [], _ => none
  | (k, v) :: rest, key => if k = key then some v else lookupField rest key

/-- Python truthiness `bool(x)` for JSON values. -/
def truthy : JVal → Bool
  | .null => false
  | .bool b => b
  | .num n => n != 0
  | .str s => !s.isEmpty
  | .arr xs => !xs.isEmpty
  | .obj fs => !fs.isEmpty

/-- Python `repr` of a JSON value (quotes written as `\x27`). -/
def pyRepr : JVal → String
  | .null => "None"
  | .bool true => "True"
  | .bool false => "False"
  | .num n => toString n
  | .str s => "\x27" ++ s ++ "\x27"
  | .arr xs =>
    "[" ++ String.intercalate ", " (xs.attach.map fun x => pyRepr x.1) ++ "]"
  | .obj fs =>
    "\x7b" ++ String.intercalate ", "
      (fs.attach.map fun kv => "\x27" ++ kv.1.1 ++ "\x27: " ++ pyRepr kv.1.2) ++ "\x7d"
decreasing_by
  · simp_wf
    have := List.sizeOf_lt_of_mem x.2
    omega
  · obtain ⟨⟨k, v⟩, hm⟩ := kv
    simp_wf
    have := List.sizeOf_lt_of_mem hm
    simp [Prod.mk.sizeOf_spec] at this
    omega

/-- Python `str(x)` as used by f-string interpolation: a string is
itself, scalars print as their repr, containers defer to `pyRepr`. -/
def pyStr : JVal → String
  | .str s => s
  | .null => "None"
  | .bool true => "True"
  | .bool false => "False"
  | .num n => toString n
  | .arr xs => pyRepr (.arr xs)
  | .obj fs => pyRepr (.obj fs)

/-- `d[key]`: `KeyError` (whose message is the repr of the key) when the
key is missing, `TypeError` when the value is not a dict. -/
def getItem : JVal → String → Except String JVal
  | .obj fs, key =>
    match lookupField fs key with
    | some v => .ok v
    | none => .error ("\x27" ++ key ++ "\x27")
  | _, _ => .error "TypeError: value is not subscriptable with a string key"

/-- `d.get(key)`: `None` when the key is missing; `AttributeError` when
the value is not a dict. -/
def dictGet : JVal → String → Except String (Option JVal)
  | .obj fs, key => .ok (lookupField fs key)
  | _, _ => .error "AttributeError: object has no attribute get"

/-- `d.get(key, default)`: note a key bound to `None` yields `None`, not
the default. -/
def dictGetD (v : JVal) (key : String) (dflt : JVal) : Except String JVal :=
  match dictGet v key with
  | .error e => .error e
  | .ok o => .ok (o.getD dflt)

/-- Boolean test that `needle` occurs as a contiguous sublist of `hay`. -/
def listInfix (needle : List Char) : List Char → Bool
  | [] => needle.isPrefixOf []
  | c :: rest => needle.isPrefixOf (c :: rest) || listInfix needle rest

/-- Literal, case-sensitive substring containment on strings. -/
def substrB (needle hay : String) : Bool :=
  listInfix needle.toList hay.toList

/-- Python `needle in hay` for a string needle: substring test on a
string, membership test on a list, `TypeError` otherwise. -/
def pyInVal (needle : String) : JVal → Except String Bool
  | .str s => .ok (substrB needle s)
  | .arr xs => .ok (xs.any fun x => match x with | .str s => s == needle | _ => false)
  | .obj fs => .ok (fs.any fun kv => kv.1 == needle)
  | _ => .error "TypeError: argument is not iterable"

/-- Python `len(x)`. -/
def pyLen : JVal → Except String Nat
  | .str s => .ok s.length
  | .arr xs => .ok xs.length
  | .obj fs => .ok fs.length
  | _ => .error "TypeError: object has no len"

/-- Python `x[:n]`. -/
def pySliceTo (v : JVal) (n : Nat) : Except String JVal :=
  match v with
  | .str s => .ok (.str (s.take n))
  | .arr xs => .ok (.arr (xs.take n))
  | _ => .error "TypeError: value is not subscriptable"

/-- Python `x >= n` against an int literal: ints compare numerically,
bools count as 0/1, anything else is a `TypeError`. -/
def pyGeInt (v : JVal) (n : Int) : Except String Bool :=
  match v with
  | .num m => .ok (decide (n ≤ m))
  | .bool b => .ok (decide (n ≤ if b then (1 : Int) else 0))
  | _ => .error "TypeError: unsupported comparison"

/-- Python iteration `for x in v`: a list yields its elements, a string
its characters, a dict its keys. -/
def pyIterate : JVal → Except String (List JVal)
  | .arr xs => .ok xs
  | .str s => .ok (s.toList.map fun c => .str (String.singleton c))
  | .obj fs => .ok (fs.map fun kv => .str kv.1)
  | _ => .error "TypeError: object is not iterable"

/-- Output of a printing fragment: the lines it printed, and the message
of the exception that aborted it, if any. -/
abbrev Emit := List String × Option String

/-- One of the two name/value loops (lines 27-28 and 34-35):
`for x in seq: print(f"  \x7bx['name']\x7d: \x7bx['value']\x7d")`.
The name is looked up, then the value, then the line is printed. -/
def nameValueLoop : List JVal → Emit
  | [] => ([], none)
  | h :: rest =>
    match getItem h "name" with
    | .error e => ([], some e)
    | .ok nm =>
      match getItem h "value" with
      | .error e => ([], some e)
      | .ok v =>
        match nameValueLoop rest with
        | (ls, err) => (("  " ++ pyStr nm ++ ": " ++ pyStr v) :: ls, err)

/-- Lines 45-46: `elif response['status'] >= 400: print(f"Error Response
Body: \x7bcontent.get('text', '')[:500]\x7d")`. -/
def errorBodyBranch (response content : JVal) : Emit :=
  match getItem response "status" with
  | .error e => ([], some e)
  | .ok status =>
    match pyGeInt status 400 with
    | .error e => ([], some e)
    | .ok ge =>
      if ge then
        match dictGetD content "text" (.str "") with
        | .error e => ([], some e)
        | .ok t =>
          match pySliceTo t 500 with
          | .error e => ([], some e)
          | .ok sliced => (["Error Response Body: " ++ pyStr sliced], none)
      else ([], none)

/-- Lines 38-46: the response-content handling of one matching entry,
starting from `content = response['content']`. -/
def contentBlock (response : JVal) : Emit :=
  match getItem response "content" with
  | .error e => ([], some e)
  | .ok content =>
    match dictGet content "mimeType" with
    | .error e => ([], some e)
    | .ok mtOpt =>
      if truthy (mtOpt.getD .null) then
        match getItem content "mimeType" with
        | .error e => ([], some e)
        | .ok mt =>
          match pyInVal "application/json" mt with
          | .error e => ([], some e)
          | .ok isJson =>
            if isJson then
              match dictGetD content "text" (.str "") with
              | .error e => ([], some e)
              | .ok text =>
                match pyLen text with
                | .error e => ([], some e)
                | .ok n =>
                  if n < 1000 then (["Response Body: " ++ pyStr text], none)
                  else
                    match pySliceTo text 200 with
                    | .error e => ([], some e)
                    | .ok t =>
                      (["Response Body (truncated): " ++ pyStr t ++ "..."], none)
            else errorBodyBranch response content
      else errorBodyBranch response content

/-- Lines 32-35: the query-params block,
`if request.get('queryString'): ...`. -/
def queryParamsBlock (request : JVal) : Emit :=
  match dictGet request "queryString" with
  | .error e => ([], some e)
  | .ok qsOpt =>
    if truthy (qsOpt.getD .null) then
      match getItem request "queryString" with
      | .error e => (["Query Params:"], some e)
      | .ok qs =>
        match pyIterate qs with
        | .error e => (["Query Params:"], some e)
        | .ok params =>
          match nameValueLoop params with
          | (ls, err) => ("Query Params:" :: ls, err)
    else ([], none)

/-- Lines 20-46: the block printed for an entry whose URL matched,
given the already-bound `request`, `response` and `url`. -/
def renderMatch (request response url : JVal) : Emit :=
  let sep := String.mk (List.replicate 80 '-')
  let l1 := "URL: " ++ pyStr url
  match getItem request "method" with
  | .error e => ([sep, l1], some e)
  | .ok method =>
    let l2 := "Method: " ++ pyStr method
    match getItem response "status" with
    | .error e => ([sep, l1, l2], some e)
    | .ok status =>
      match getItem response "statusText" with
      | .error e => ([sep, l1, l2], some e)
      | .ok stext =>
        let l3 := "Status: " ++ pyStr status ++ " " ++ pyStr stext
        let head4 := [sep, l1, l2, l3, "Headers:"]
        match getItem request "headers" with
        | .error e => (head4, some e)
        | .ok hv =>
          match pyIterate hv with
          | .error e => (head4, some e)
          | .ok headers =>
            match nameValueLoop headers with
            | (hls, some e) => (head4 ++ hls, some e)
            | (hls, none) =>
              match queryParamsBlock request with
              | (qls, some e) => (head4 ++ hls ++ qls, some e)
              | (qls, none) =>
                match contentBlock response with
                | (cls, err) => (head4 ++ hls ++ qls ++ cls, err)

/-- Lines 14-46: one iteration of the entries loop. `request`,
`response` and `url` are read before the URL filter is evaluated. -/
def processEntry (entry : JVal) : Emit :=
  match getItem entry "request" with
  | .error e => ([], some e)
  | .ok request =>
    match getItem entry "response" with
    | .error e => ([], some e)
    | .ok response =>
      match getItem request "url" with
      | .error e => ([], some e)
      | .ok url =>
        match pyInVal "api/auth" url with
        | .error e => ([], some e)
        | .ok b1 =>
          match pyInVal "api/oauth" url with
          | .error e => ([], some e)
          | .ok b2 =>
            match pyInVal "callback" url with
            | .error e => ([], some e)
            | .ok b3 =>
              if b1 || b2 || b3 then renderMatch request response url
              else ([], none)

/-- Line 13: the `for entry in entries` loop; the first exception stops
the loop, output printed so far is kept. -/
def entriesLoop : List JVal → Emit
  | [] => ([], none)
  | e :: rest =>
    match processEntry e with
    | (ls, some msg) => (ls, some msg)
    | (ls, none) =>
      match entriesLoop rest with
      | (ls2, err) => (ls ++ ls2, err)

/-- Lines 10-46: the body of the `try` block after `json.load`
succeeded. -/
def processDoc (har_data : JVal) : Emit :=
  match getItem har_data "log" with
  | .error e => ([], some e)
  | .ok logv =>
    match getItem logv "entries" with
    | .error e => ([], some e)
    | .ok entriesVal =>
      match pyLen entriesVal with
      | .error e => ([], some e)
      | .ok n =>
        let totalLine := "Total entries: " ++ toString n
        match pyIterate entriesVal with
        | .error e => ([totalLine], some e)
        | .ok entries =>
          match entriesLoop entries with
          | (ls, err) => (totalLine :: ls, err)

/-- Lines 5-49: `parse_har(file_path)`. The argument models the result
of `open` + `json.load` on the file (lines 7-8); the single `except`
at lines 48-49 appends one error line to whatever was printed. -/
def parse_har (loadResult : Except String JVal) : List String :=
  match loadResult with
  | .error e => ["Error parsing HAR: " ++ e]
  | .ok har_data =>
    match processDoc har_data with
    | (ls, none) => ls
    | (ls, some e) => ls ++ ["Error parsing HAR: " ++ e]

/-- Lines 51-55: the `__main__` block. `args` is `sys.argv[1:]`; `fs`
models the filesystem, mapping a path to the result of `open` +
`json.load`. `len(sys.argv) < 2` is `args = []`, and only
`sys.argv[1]` (the head) is ever used. -/
def mainOutput (args : List String) (fs : String → Except String JVal) : List String :=
  match args with
  | [] => ["Usage: python3 parse_har.py <file_path>"]
  | a :: _ => parse_har (fs a)

/-! ### Structured HAR data and the spec-side description of a block

`EntryData` is a well-shaped HAR entry as described by the spec's data
model (§3): string url/method, name/value header and query-string pairs,
integer status, optional string mimeType and text. `EntryData.toJson` is
its JSON form as `json.load` would produce it. The `...Spec` functions
transcribe the spec's §4.1 render contract; the theorems below compare
the embedded code against them. -/

/-- A well-shaped HAR entry (spec §3). -/
structure EntryData where
  url : String
  method : String
  headers : List (String × String)
  queryString : Option (List (String × String))
  status : Int
  statusText : String
  mimeType : Option String
  text : Option String

/-- A header or query-string pair as a JSON object. -/
def mkNV (p : String × String) : JVal :=
  .obj [("name", .str p.1), ("value", .str p.2)]

/-- A response `content` object with its optional fields. -/
def mkContent (mt tx : Option String) : JVal :=
  .obj ((match mt with | some m => [("mimeType", .str m)] | none => [])
     ++ (match tx with | some t => [("text", .str t)] | none => []))

/-- A well-shaped response object. -/
def mkResponse (status : Int) (statusText : String) (mt tx : Option String) : JVal :=
  .obj [("status", .num status), ("statusText", .str statusText),
        ("content", mkContent mt tx)]

/-- A well-shaped request object; `queryString` is present only when
given. -/
def mkRequest (url method : String) (headers : List (String × String))
    (qs : Option (List (String × String))) : JVal :=
  .obj ([("url", .str url), ("method", .str method),
         ("headers", .arr (headers.map mkNV))]
     ++ (match qs with
         | some ps => [("queryString", .arr (ps.map mkNV))]
         | none => []))

/-- The JSON form of a well-shaped entry. -/
def EntryData.toJson (e : EntryData) : JVal :=
  .obj [("request", mkRequest e.url e.method e.headers e.queryString),
        ("response", mkResponse e.status e.statusText e.mimeType e.text)]

/-- A HAR document whose `log.entries` is the given list. -/
def mkDoc (es : List JVal) : JVal :=
  .obj [("log", .obj [("entries", .arr es)])]

/-- Spec §4.1 `matches(url)`: the url contains `api/auth`, `api/oauth`
or `callback` as a literal, case-sensitive substring. -/
def urlMatchesSpec (u : String) : Bool :=
  substrB "api/auth" u || substrB "api/oauth" u || substrB "callback" u

/-- Spec §4.1 item 5/6: an indented name/value line. -/
def fmtNV (p : String × String) : String :=
  "  " ++ p.1 ++ ": " ++ p.2

/-- Spec §4.1 item 7: the response-body priority chain. -/
def bodySpec (status : Int) (mt tx : Option String) : List String :=
  if (match mt with | some m => substrB "application/json" m | none => false) then
    let text := tx.getD ""
    if text.length < 1000 then ["Response Body: " ++ text]
    else ["Response Body (truncated): " ++ text.take 200 ++ "..."]
  else if 400 ≤ status then
    ["Error Response Body: " ++ (tx.getD "").take 500]
  else []

/-- Spec §4.1 item 6: the query-params block, omitted entirely when
`queryString` is absent or empty. -/
def qsSpec : Option (List (String × String)) → List String
  | none => []
  | some [] => []
  | some (p :: ps) => "Query Params:" :: (p :: ps).map fmtNV

/-- Spec §4.1 items 1-7: the whole block for a matching entry. -/
def blockSpec (e : EntryData) : List String :=
  String.mk (List.replicate 80 '-') ::
  ("URL: " ++ e.url) ::
  ("Method: " ++ e.method) ::
  ("Status: " ++ toString e.status ++ " " ++ e.statusText) ::
  "Headers:" ::
  (e.headers.map fmtNV ++ qsSpec e.queryString
     ++ bodySpec e.status e.mimeType e.text)

/-- Spec §4.1: what one entry contributes to the output. -/
def renderSpec (e : EntryData) : List String :=
  if urlMatchesSpec e.url then blockSpec e else []

/-! ### Evaluation lemmas for the structured shapes -/

theorem getItem_mkNV_name (p : String × String) :
    getItem (mkNV p) "name" = .ok (.str p.1) := rfl

theorem getItem_mkNV_value (p : String × String) :
    getItem (mkNV p) "value" = .ok (.str p.2) := rfl

theorem pyStr_str (s : String) : pyStr (.str s) = s := rfl

theorem nameValueLoop_map (ps : List (String × String)) :
    nameValueLoop (ps.map mkNV) = (ps.map fmtNV, none) := by
  induction ps with
  | nil => rfl
  | cons p ps ih =>
    simp [nameValueLoop, getItem_mkNV_name, getItem_mkNV_value, pyStr_str, ih,
      fmtNV]

theorem dictGet_mkContent_mimeType (mt tx : Option String) :
    dictGet (mkContent mt tx) "mimeType" = .ok (mt.map JVal.str) := by
  cases mt <;> cases tx <;> rfl

theorem getItem_mkContent_mimeType (m : String) (tx : Option String) :
    getItem (mkContent (some m) tx) "mimeType" = .ok (.str m) := by
  cases tx <;> rfl

theorem dictGetD_mkContent_text (mt tx : Option String) :
    dictGetD (mkContent mt tx) "text" (.str "") = .ok (.str (tx.getD "")) := by
  cases mt <;> cases tx <;> rfl

theorem getItem_mkResponse_status (s : Int) (st : String) (mt tx : Option String) :
    getItem (mkResponse s st mt tx) "status" = .ok (.num s) := rfl

theorem getItem_mkResponse_statusText (s : Int) (st : String) (mt tx : Option String) :
    getItem (mkResponse s st mt tx) "statusText" = .ok (.str st) := rfl

theorem getItem_mkResponse_content (s : Int) (st : String) (mt tx : Option String) :
    getItem (mkResponse s st mt tx) "content" = .ok (mkContent mt tx) := rfl

theorem errorBodyBranch_mk (s : Int) (st : String) (mt tx : Option String) :
    errorBodyBranch (mkResponse s st mt tx) (mkContent mt tx)
      = ((if 400 ≤ s then ["Error Response Body: " ++ (tx.getD "").take 500]
          else []), none) := by
  by_cases h : (400 : Int) ≤ s <;>
    simp [errorBodyBranch, getItem_mkResponse_status, pyGeInt,
      dictGetD_mkContent_text, pySliceTo, pyStr_str, h]

theorem contentBlock_mk (s : Int) (st : String) (mt tx : Option String) :
    contentBlock (mkResponse s st mt tx) = (bodySpec s mt tx, none) := by
  cases mt with
  | none =>
    simp [contentBlock, getItem_mkResponse_content, dictGet_mkContent_mimeType,
      truthy, bodySpec, errorBodyBranch_mk]
  | some m =>
    by_cases hm : m = ""
    · subst hm
      have hsub : substrB "application/json" "" = false := by decide
      have hE : ("" : String).isEmpty = true := by decide
      simp [contentBlock, getItem_mkResponse_content, dictGet_mkContent_mimeType,
        truthy, bodySpec, hsub, hE, errorBodyBranch_mk]
    · have hmE : m.isEmpty = false := by
        cases he : m.isEmpty
        · rfl
        · exact absurd ((String.isEmpty_iff m).mp he) hm
      cases hj : substrB "application/json" m with
      | false =>
        simp [contentBlock, getItem_mkResponse_content,
          dictGet_mkContent_mimeType, truthy, hmE, getItem_mkContent_mimeType,
          pyInVal, hj, bodySpec, errorBodyBranch_mk]
      | true =>
        by_cases hl : (tx.getD "").length < 1000 <;>
          simp [contentBlock, getItem_mkResponse_content,
            dictGet_mkContent_mimeType, truthy, hmE, getItem_mkContent_mimeType,
            pyInVal, hj, bodySpec, dictGetD_mkContent_text, pyLen, pySliceTo,
            pyStr_str, hl]

theorem pyStr_num (n : Int) : pyStr (.num n) = toString n := rfl

theorem dictGet_mkRequest_queryString (u mth : String)
    (hs : List (String × String)) (qs : Option (List (String × String))) :
    dictGet (mkRequest u mth hs qs) "queryString"
      = .ok (qs.map fun ps => .arr (ps.map mkNV)) := by
  cases qs <;> rfl

theorem getItem_mkRequest_url (u mth : String) (hs : List (String × String))
    (qs : Option (List (String × String))) :
    getItem (mkRequest u mth hs qs) "url" = .ok (.str u) := by
  cases qs <;> rfl

theorem getItem_mkRequest_method (u mth : String) (hs : List (String × String))
    (qs : Option (List (String × String))) :
    getItem (mkRequest u mth hs qs) "method" = .ok (.str mth) := by
  cases qs <;> rfl

theorem getItem_mkRequest_headers (u mth : String) (hs : List (String × String))
    (qs : Option (List (String × String))) :
    getItem (mkRequest u mth hs qs) "headers" = .ok (.arr (hs.map mkNV)) := by
  cases qs <;> rfl

theorem getItem_mkRequest_queryString (u mth : String)
    (hs ps : List (String × String)) :
    getItem (mkRequest u mth hs (some ps)) "queryString"
      = .ok (.arr (ps.map mkNV)) := rfl

theorem queryParamsBlock_mk (u mth : String) (hs : List (String × String))
    (qs : Option (List (String × String))) :
    queryParamsBlock (mkRequest u mth hs qs) = (qsSpec qs, none) := by
  cases qs with
  | none =>
    simp [queryParamsBlock, dictGet_mkRequest_queryString, truthy, qsSpec]
  | some ps =>
    cases ps with
    | nil =>
      simp [queryParamsBlock, dictGet_mkRequest_queryString, truthy, qsSpec]
    | cons p ps =>
      have hnv := nameValueLoop_map (p :: ps)
      simp only [List.map_cons] at hnv
      simp [queryParamsBlock, dictGet_mkRequest_queryString, truthy,
        getItem_mkRequest_queryString, pyIterate, hnv, qsSpec]

theorem renderMatch_mk (e : EntryData) :
    renderMatch (mkRequest e.url e.method e.headers e.queryString)
      (mkResponse e.status e.statusText e.mimeType e.text) (.str e.url)
      = (blockSpec e, none) := by
  simp [renderMatch, getItem_mkRequest_method, getItem_mkResponse_status,
    getItem_mkResponse_statusText, getItem_mkRequest_headers, pyIterate,
    nameValueLoop_map, queryParamsBlock_mk, contentBlock_mk, pyStr_str,
    pyStr_num, blockSpec]

theorem getItem_toJson_request (e : EntryData) :
    getItem e.toJson "request"
      = .ok (mkRequest e.url e.method e.headers e.queryString) := rfl

theorem getItem_toJson_response (e : EntryData) :
    getItem e.toJson "response"
      = .ok (mkResponse e.status e.statusText e.mimeType e.text) := rfl

theorem processEntry_toJson (e : EntryData) :
    processEntry e.toJson = (renderSpec e, none) := by
  simp only [processEntry, getItem_toJson_request, getItem_toJson_response,
    getItem_mkRequest_url, pyInVal]
  cases hu : urlMatchesSpec e.url with
  | true =>
    have : (substrB "api/auth" e.url || substrB "api/oauth" e.url
        || substrB "callback" e.url) = true := hu
    simp [this, renderSpec, hu, renderMatch_mk]
  | false =>
    have : (substrB "api/auth" e.url || substrB "api/oauth" e.url
        || substrB "callback" e.url) = false := hu
    simp [this, renderSpec, hu]

theorem entriesLoop_map (es : List EntryData) :
    entriesLoop (es.map EntryData.toJson) = (es.flatMap renderSpec, none) := by
  induction es with
  | nil => rfl
  | cons e es ih =>
    simp [entriesLoop, processEntry_toJson, ih, List.flatMap_cons]

theorem getItem_mkDoc_log (es : List JVal) :
    getItem (mkDoc es) "log" = .ok (.obj [("entries", .arr es)]) := rfl

theorem getItem_logObj_entries (es : List JVal) :
    getItem (.obj [("entries", .arr es)]) "entries" = .ok (.arr es) := rfl

theorem processDoc_mkDoc (es : List JVal) :
    processDoc (mkDoc es)
      = (("Total entries: " ++ toString es.length) :: (entriesLoop es).1,
         (entriesLoop es).2) := by
  rcases hE : entriesLoop es with ⟨ls, err⟩
  simp [processDoc, getItem_mkDoc_log, getItem_logObj_entries, pyLen,
    pyIterate, hE]

theorem parse_har_ok_map (es : List EntryData) :
    parse_har (.ok (mkDoc (es.map EntryData.toJson)))
      = ("Total entries: " ++ toString es.length) :: es.flatMap renderSpec := by
  simp [parse_har, processDoc_mkDoc, entriesLoop_map, List.length_map]

theorem entriesLoop_append_fail (goods : List EntryData) (bad : JVal)
    (rest : List JVal) (ls : List String) (msg : String)
    (h : processEntry bad = (ls, some msg)) :
    entriesLoop (goods.map EntryData.toJson ++ bad :: rest)
      = (goods.flatMap renderSpec ++ ls, some msg) := by
  induction goods with
  | nil => simp [entriesLoop, h]
  | cons e es ih =>
    simp [entriesLoop, processEntry_toJson, ih, List.flatMap_cons]

/-! ### The claims -/

/-- C1: for a matching entry the response-body line follows a strict
priority chain: when `content.mimeType` is present and contains
`application/json`, with `text` being `content.text` or the empty
string, the line is `Response Body: <text>` when `text` is shorter than
1000 characters and otherwise `Response Body (truncated): <first 200
characters>...`; else when `status >= 400` the line is `Error Response
Body: <first 500 characters of content.text, or empty if absent>`; else
no body line is printed. -/
theorem claim_C1_body_priority_chain (s : Int) (st : String)
    (mt tx : Option String) :
    contentBlock (mkResponse s st mt tx)
      = ((if (match mt with
              | some m => substrB "application/json" m
              | none => false) then
            if (tx.getD "").length < 1000 then
              ["Response Body: " ++ tx.getD ""]
            else
              ["Response Body (truncated): " ++ (tx.getD "").take 200 ++ "..."]
          else if 400 ≤ s then
            ["Error Response Body: " ++ (tx.getD "").take 500]
          else []), none) := by
  simpa [bodySpec] using contentBlock_mk s st mt tx

/-- C2: on any failure during loading or during the entries loop, the
report keeps every line already printed, appends exactly one final
`Error parsing HAR: <message>` line, and processes no further entries
after the failing one (only the length of the remaining entry list,
already counted in the total, matters — not its contents); the
exception is absorbed, not propagated. -/
theorem claim_C2_single_error_line :
    (∀ msg : String, parse_har (.error msg) = ["Error parsing HAR: " ++ msg])
    ∧ ∀ (goods : List EntryData) (bad : JVal) (rest : List JVal)
        (ls : List String) (msg : String),
        processEntry bad = (ls, some msg) →
        parse_har (.ok (mkDoc (goods.map EntryData.toJson ++ bad :: rest)))
          = ("Total entries: " ++ toString (goods.length + rest.length + 1))
            :: (goods.flatMap renderSpec ++ ls
                ++ ["Error parsing HAR: " ++ msg]) := by
  refine ⟨fun msg => rfl, fun goods bad rest ls msg h => ?_⟩
  have hlen : (goods.map EntryData.toJson ++ bad :: rest).length
      = goods.length + rest.length + 1 := by
    simp
    omega
  simp [parse_har, processDoc_mkDoc, entriesLoop_append_fail goods bad rest ls
    msg h, hlen]

/-- Witness for C2: a document whose single entry is the empty object
fails with a `KeyError` on `request` and yields exactly the count line
and one error line. -/
theorem claim_C2_single_error_line_witness :
    parse_har (.ok (mkDoc [JVal.obj []]))
      = ["Total entries: 1", "Error parsing HAR: \x27request\x27"] := by
  have h := claim_C2_single_error_line.2 [] (.obj []) [] []
    "\x27request\x27" rfl
  simpa using h

/-- C3: a block is emitted for an entry if and only if its url contains
one of the literal, case-sensitive substrings `api/auth`, `api/oauth`,
`callback` (see `urlMatchesSpec`); a non-matching entry contributes no
output at all. -/
theorem claim_C3_url_filter (e : EntryData) :
    processEntry e.toJson
      = ((if urlMatchesSpec e.url then blockSpec e else []), none)
    ∧ blockSpec e ≠ [] := by
  refine ⟨?_, by simp [blockSpec]⟩
  simpa [renderSpec] using processEntry_toJson e

/-- Witness for C3 at a concrete non-matching entry. -/
theorem claim_C3_url_filter_witness :
    (processEntry (EntryData.mk "https://x.com/static/app.js" "GET" [] none
         200 "OK" none none).toJson
       = ((if urlMatchesSpec "https://x.com/static/app.js" then
             blockSpec (EntryData.mk "https://x.com/static/app.js" "GET" []
               none 200 "OK" none none)
           else []), none))
    ∧ blockSpec (EntryData.mk "https://x.com/static/app.js" "GET" [] none
        200 "OK" none none) ≠ [] :=
  claim_C3_url_filter
    (EntryData.mk "https://x.com/static/app.js" "GET" [] none 200 "OK"
      none none)

/-- C4: the block of a matching entry starts with a separator of exactly
80 `-` characters, then `URL:`, `Method:`, `Status: <status>
<statusText>` verbatim, then the `Headers:` label followed by one
indented line per header in original order (only the label when there
are no headers). -/
theorem claim_C4_block_layout (e : EntryData)
    (h : urlMatchesSpec e.url = true) :
    ∃ rest : List String,
      processEntry e.toJson
        = (String.mk (List.replicate 80 '-') ::
           ("URL: " ++ e.url) ::
           ("Method: " ++ e.method) ::
           ("Status: " ++ toString e.status ++ " " ++ e.statusText) ::
           "Headers:" ::
           (e.headers.map (fun p => "  " ++ p.1 ++ ": " ++ p.2) ++ rest),
           none) := by
  refine ⟨qsSpec e.queryString ++ bodySpec e.status e.mimeType e.text, ?_⟩
  have := processEntry_toJson e
  rw [this]
  simp [renderSpec, h, blockSpec, fmtNV]

/-- Witness for C4 at a concrete matching entry with one header. -/
theorem claim_C4_block_layout_witness :
    ∃ rest : List String,
      processEntry (EntryData.mk "https://x.com/api/auth/a" "GET"
          [("Host", "x.com")] none 200 "OK" none none).toJson
        = (String.mk (List.replicate 80 '-') ::
           ("URL: " ++ "https://x.com/api/auth/a") ::
           ("Method: " ++ "GET") ::
           ("Status: " ++ toString (200 : Int) ++ " " ++ "OK") ::
           "Headers:" ::
           ([("Host", "x.com")].map (fun p => "  " ++ p.1 ++ ": " ++ p.2)
             ++ rest), none) :=
  claim_C4_block_layout
    (EntryData.mk "https://x.com/api/auth/a" "GET" [("Host", "x.com")] none
      200 "OK" none none) (by decide)

/-- C5: the first output line is `Total entries: N`, printed before any
per-entry output, and matching entries are rendered in document
order. -/
theorem claim_C5_total_then_order :
    (∀ es : List JVal, ∃ rest : List String,
        parse_har (.ok (mkDoc es))
          = ("Total entries: " ++ toString es.length) :: rest)
    ∧ ∀ es : List EntryData,
        parse_har (.ok (mkDoc (es.map EntryData.toJson)))
          = ("Total entries: " ++ toString es.length)
            :: es.flatMap renderSpec := by
  constructor
  · intro es
    rcases hE : entriesLoop es with ⟨ls, err⟩
    cases err with
    | none => exact ⟨ls, by simp [parse_har, processDoc_mkDoc, hE]⟩
    | some m =>
      exact ⟨ls ++ ["Error parsing HAR: " ++ m],
        by simp [parse_har, processDoc_mkDoc, hE]⟩
  · exact parse_har_ok_map

/-- Witness for C5 at a concrete one-entry document. -/
theorem claim_C5_total_then_order_witness :
    parse_har (.ok (mkDoc ([EntryData.mk "https://x.com/api/auth/z" "GET" []
        none 200 "OK" none none].map EntryData.toJson)))
      = ("Total entries: "
          ++ toString [EntryData.mk "https://x.com/api/auth/z" "GET" [] none
               200 "OK" none none].length)
        :: [EntryData.mk "https://x.com/api/auth/z" "GET" [] none 200 "OK"
             none none].flatMap renderSpec :=
  claim_C5_total_then_order.2
    [EntryData.mk "https://x.com/api/auth/z" "GET" [] none 200 "OK" none none]

/-- C6: within a matching entry's block, the `Query Params:` label and
its indented lines appear exactly when `queryString` is present and
non-empty; when it is absent or empty nothing of the block appears, not
even the label. -/
theorem claim_C6_query_params (e : EntryData)
    (h : urlMatchesSpec e.url = true) :
    processEntry e.toJson
      = (String.mk (List.replicate 80 '-') ::
         ("URL: " ++ e.url) ::
         ("Method: " ++ e.method) ::
         ("Status: " ++ toString e.status ++ " " ++ e.statusText) ::
         "Headers:" ::
         (e.headers.map fmtNV
           ++ (match e.queryString with
               | none => []
               | some [] => []
               | some (p :: ps) => "Query Params:" :: (p :: ps).map fmtNV)
           ++ bodySpec e.status e.mimeType e.text), none) := by
  have := processEntry_toJson e
  rw [this]
  rcases e with ⟨u, mth, hs, qs, s, st, mt, tx⟩
  cases qs with
  | none => simp_all [renderSpec, blockSpec, qsSpec]
  | some ps => cases ps <;> simp_all [renderSpec, blockSpec, qsSpec]

/-- Witness for C6: a matching entry with one query parameter shows the
label and the parameter line; `bodySpec 200 none none` is empty. -/
theorem claim_C6_query_params_witness :
    processEntry (EntryData.mk "cb/callback" "GET" []
        (some [("code", "z")]) 200 "OK" none none).toJson
      = (String.mk (List.replicate 80 '-') ::
         ("URL: " ++ "cb/callback") ::
         ("Method: " ++ "GET") ::
         ("Status: " ++ toString (200 : Int) ++ " " ++ "OK") ::
         "Headers:" ::
         (([] : List (String × String)).map fmtNV
           ++ (match (some [("code", "z")] :
                  Option (List (String × String))) with
               | none => []
               | some [] => []
               | some (p :: ps) => "Query Params:" :: (p :: ps).map fmtNV)
           ++ bodySpec 200 none none), none) :=
  claim_C6_query_params
    (EntryData.mk "cb/callback" "GET" [] (some [("code", "z")]) 200 "OK"
      none none) (by decide)

/-- C7: with no argument the whole output is exactly the usage line, for
every state of the filesystem (so no file is opened or processed); with
one or more arguments only the first is used, the rest are ignored. -/
theorem claim_C7_usage_and_args :
    (∀ fs : String → Except String JVal,
        mainOutput [] fs = ["Usage: python3 parse_har.py <file_path>"])
    ∧ ∀ (a : String) (extra : List String)
        (fs : String → Except String JVal),
        mainOutput (a :: extra) fs = parse_har (fs a) :=
  ⟨fun _ => rfl, fun _ _ _ => rfl⟩

/-- Witness for C7 at a concrete filesystem and argument lists. -/
theorem claim_C7_usage_and_args_witness :
    mainOutput [] (fun _ => .error "missing")
      = ["Usage: python3 parse_har.py <file_path>"]
    ∧ mainOutput ["a.har", "b.har"] (fun _ => .error "missing")
      = parse_har ((fun _ => Except.error "missing" :
          String → Except String JVal) "a.har") :=
  ⟨claim_C7_usage_and_args.1 (fun _ => .error "missing"),
   claim_C7_usage_and_args.2 "a.har" ["b.har"] (fun _ => .error "missing")⟩

/-- C8: the output is a function of the argument list and the file
contents alone: two runs over filesystems that agree pointwise produce
identical output (the embedding is pure - no randomness, no
timestamps). -/
theorem claim_C8_deterministic (args : List String)
    (fs1 fs2 : String → Except String JVal) (h : ∀ p, fs1 p = fs2 p) :
    mainOutput args fs1 = mainOutput args fs2 := by
  cases args with
  | nil => rfl
  | cons a rest => simp [mainOutput, h a]

/-- Witness for C8 at a concrete argument list and filesystem. -/
theorem claim_C8_deterministic_witness :
    mainOutput ["har.json"] (fun _ => .error "boom")
      = mainOutput ["har.json"] (fun _ => .error "boom") :=
  claim_C8_deterministic ["har.json"] (fun _ => .error "boom")
    (fun _ => .error "boom") (fun _ => rfl)

/-- An entry whose request has a non-matching url but which lacks the
`response` key (claim C9). -/
def entryNoResponse : JVal :=
  .obj [("request", .obj [("url", .str "https://x.com/static/app.js"),
    ("method", .str "GET"), ("headers", .arr [])])]

/-- A fully well-shaped matching entry placed after the bad one
(claim C9). -/
def entryAfterBad : EntryData :=
  ⟨"https://x.com/api/auth/z", "GET", [], none, 200, "OK", none, none⟩

/-- C9: `entry['request']`, `entry['response']` and `request['url']` are
read before the URL filter runs: a document whose first entry lacks
`response` and has a non-matching url still aborts at that entry with
the error line, and the later matching entry - which on its own would
render a block - produces nothing. -/
theorem claim_C9_eager_field_reads :
    processEntry entryNoResponse = ([], some "\x27response\x27")
    ∧ parse_har (.ok (mkDoc [entryNoResponse, entryAfterBad.toJson]))
        = ["Total entries: 2", "Error parsing HAR: \x27response\x27"]
    ∧ (processEntry entryAfterBad.toJson).1 ≠ [] := by
  refine ⟨rfl, rfl, ?_⟩
  rw [processEntry_toJson]
  simp [renderSpec, urlMatchesSpec, blockSpec]
  decide

/-- A matching entry whose response lacks the `content` key
(claim C10). -/
def entryNoContent : JVal :=
  .obj [("request", .obj [("url", .str "https://x.com/api/oauth/t"),
          ("method", .str "POST"),
          ("headers", .arr [.obj [("name", .str "Host"),
                                  ("value", .str "x.com")]])]),
        ("response", .obj [("status", .num 200), ("statusText", .str "OK")])]

/-- C10: rendering is not atomic: for a matching entry whose response
lacks `content`, the separator, URL, Method, Status and Headers lines
are already printed when the failure hits, so the output holds a
partially rendered block followed by the error line. -/
theorem claim_C10_partial_block :
    parse_har (.ok (mkDoc [entryNoContent]))
      = ["Total entries: 1", String.mk (List.replicate 80 '-'),
         "URL: https://x.com/api/oauth/t", "Method: POST", "Status: 200 OK",
         "Headers:", "  Host: x.com",
         "Error parsing HAR: \x27content\x27"] := by
  decide

end ParseHar
